import Mathlib

/-!
Verification of the AMR data pipeline (src/amr_data_pipeline.py) against its
natural-language specification.

The source is a single Python class `AMRDataPipeline` with three per-source
handlers (`process_market_data`, `analyze_customer_behavior`,
`collect_ecosystem_feedback`), a producer initializer and a `shutdown` method.
Each handler wraps its whole body in `try: ... except Exception as e:
logger.error(...)`, so no exception ever escapes to the caller; the observable
result of a call is the set of messages actually handed to the Kafka producer,
the log lines emitted, and whether the body completed or was caught.

We embed the handlers shallowly: Python dicts become association lists from
`String` to `Value`, Python exceptions become a `PyError` sum threaded through
an `Except` monad for the try-body, and the external collaborators (the Kafka
producer and the tokenizer/model scoring pair) become behaviour parameters,
since their internals live outside the repository.
-/

/-- A Python value stored in one of the pipeline's dictionaries.  The events in
the source carry strings (timestamps, ids, free text, labels); numbers are kept
for generality of the `Dict` model. -/
inductive Value where
  | str : String → Value
  | num : ℚ → Value
deriving DecidableEq, Repr

/-- A Python dict, as an association list in insertion order. -/
abbrev Dict := List (String × Value)

/-- `d[k]` read access: the value at the first occurrence of key `k`. -/
def Dict.lookup : Dict → String → Option Value
  | [], _ => none
  | (k', v) :: rest, k => if k' = k then some v else Dict.lookup rest k

/-- `d[k] = v` write access (first occurrence replaced, else appended).  The
pipeline's handlers never apply this to their input dictionaries; it is part of
the dict model so that absence of mutation is expressible. -/
def Dict.setItem (d : Dict) (k : String) (v : Value) : Dict :=
  match d with
  | [] => [(k, v)]
  | (k', v') :: rest =>
      if k' = k then (k, v) :: rest else (k', v') :: Dict.setItem rest k v

/-- The exceptions that can arise inside the handlers' try-bodies:
subscripting a dict with a missing key (`KeyError`), calling a method on the
uninitialized `None` producer (`AttributeError`), a failure inside the Kafka
client (`kafkaError`), and a failure inside the tokenizer/model scoring
pipeline (`inferenceError`). -/
inductive PyError where
  | keyError : String → PyError
  | attributeError : String → PyError
  | kafkaError : String → PyError
  | inferenceError : String → PyError
deriving DecidableEq, Repr

/-- Dict subscripting `d[k]`, raising `KeyError` when the key is absent. -/
def Dict.getItem (d : Dict) (k : String) : Except PyError Value :=
  match d.lookup k with
  | some v => Except.ok v
  | none => Except.error (PyError.keyError k)

/-- One line emitted through `logger`: the `logger.info` line after a
successful send, the `logger.error` line of an except-block (keeping the
message context of the source and the caught exception), or the info line of a
successful producer close. -/
inductive LogEntry where
  | sentInfo : String → Dict → LogEntry
  | errorLog : String → PyError → LogEntry
  | producerClosed : LogEntry
deriving DecidableEq, Repr

/-- The terminal result of processing one event, in the spec's vocabulary:
the try-body ran to completion (`acked`) or an exception was caught and the
event's processing ended in the except-block (`failed`). -/
inductive DeliveryOutcome where
  | acked : DeliveryOutcome
  | failed : PyError → DeliveryOutcome
deriving DecidableEq, Repr

/-- The behaviour of an initialized Kafka producer, as seen through the two
calls the source makes on it: `send(topic, value=payload)` and `close()`.
The producer is an external collaborator; its behaviour is a parameter. -/
structure Producer where
  send : String → Dict → Except PyError Unit
  close : Except PyError Unit

/-- The producer slot of the pipeline: `self.kafka_producer` is `None` until
`initialize_producer` runs. -/
abbrev ProducerSlot := Option Producer

/-- Calling `.send` on the producer slot: on `None` this is the
`AttributeError` of `None.send`, otherwise the producer's own behaviour. -/
def ProducerSlot.sendCall (p : ProducerSlot) (topic : String) (payload : Dict) :
    Except PyError Unit :=
  match p with
  | none => Except.error (PyError.attributeError "send")
  | some producer => producer.send topic payload

/-- The tokenizer/model pair of the source (`self.tokenizer`, `self.model` and
the `float(outputs.logits...)` projection), folded into one opaque scoring
function as the spec directs; it either yields the numeric sentiment score or
raises. -/
abbrev Scorer := Value → Except PyError ℚ

/-- What one handler call observably did: the `(topic, payload)` messages
actually handed to the producer, the log lines emitted, the terminal outcome of
the try/except, and the value of the input dictionary after the call (the
handlers contain no statement writing into their argument, which this field
makes checkable). -/
structure MethodResult where
  sent : List (String × Dict)
  log : List LogEntry
  outcome : DeliveryOutcome
  inputAfter : Dict
deriving DecidableEq, Repr

/-- Try-body of `process_market_data` (src/amr_data_pipeline.py:47-49):
`self.kafka_producer.send('market_trends', value=data)` then the info log. -/
def process_market_data_body (p : ProducerSlot) (data : Dict) :
    Except PyError (List (String × Dict) × List LogEntry) :=
  match p.sendCall "market_trends" data with
  | Except.error e => Except.error e
  | Except.ok _ =>
      Except.ok ([("market_trends", data)],
        [LogEntry.sentInfo "Sent market data" data])

/-- `AMRDataPipeline.process_market_data` (src/amr_data_pipeline.py:41-51):
the try-body above with `except Exception as e: logger.error(...)`. -/
def process_market_data (p : ProducerSlot) (data : Dict) :
    Except PyError MethodResult :=
  match process_market_data_body p data with
  | Except.ok (sent, log) => Except.ok ⟨sent, log, DeliveryOutcome.acked, data⟩
  | Except.error e =>
      Except.ok ⟨[], [LogEntry.errorLog "Failed to send market data" e],
        DeliveryOutcome.failed e, data⟩

/-- Try-body of `analyze_customer_behavior` (src/amr_data_pipeline.py:60-77),
statement by statement: subscript `interaction_data['text']`, run the opaque
scorer (tokenizer, model, logits projection), threshold the score at `0.5`
into the lowercase labels of the source, subscript
`interaction_data['customer_id']`, build the fresh `analysis_result` dict in
insertion order, send it to `customer_behavior`, log. -/
def analyze_customer_behavior_body (p : ProducerSlot) (score : Scorer)
    (interaction_data : Dict) :
    Except PyError (List (String × Dict) × List LogEntry) :=
  match interaction_data.getItem "text" with
  | Except.error e => Except.error e
  | Except.ok text =>
    match score text with
    | Except.error e => Except.error e
    | Except.ok sentiment_score =>
      let feedback : String :=
        if (1 : ℚ) / 2 < sentiment_score then "positive" else "negative"
      match interaction_data.getItem "customer_id" with
      | Except.error e => Except.error e
      | Except.ok cid =>
        let analysis_result : Dict :=
          [("customer_id", cid), ("sentiment", Value.str feedback)]
        match p.sendCall "customer_behavior" analysis_result with
        | Except.error e => Except.error e
        | Except.ok _ =>
            Except.ok ([("customer_behavior", analysis_result)],
              [LogEntry.sentInfo "Sent customer behavior analysis" analysis_result])

/-- `AMRDataPipeline.analyze_customer_behavior` (src/amr_data_pipeline.py:53-79):
the try-body above with `except Exception as e: logger.error(...)`. -/
def analyze_customer_behavior (p : ProducerSlot) (score : Scorer)
    (interaction_data : Dict) : Except PyError MethodResult :=
  match analyze_customer_behavior_body p score interaction_data with
  | Except.ok (sent, log) => Except.ok ⟨sent, log, DeliveryOutcome.acked, interaction_data⟩
  | Except.error e =>
      Except.ok ⟨[], [LogEntry.errorLog "Failed to analyze customer behavior" e],
        DeliveryOutcome.failed e, interaction_data⟩

/-- Try-body of `collect_ecosystem_feedback` (src/amr_data_pipeline.py:87-89). -/
def collect_ecosystem_feedback_body (p : ProducerSlot) (feedback_data : Dict) :
    Except PyError (List (String × Dict) × List LogEntry) :=
  match p.sendCall "ecosystem_feedback" feedback_data with
  | Except.error e => Except.error e
  | Except.ok _ =>
      Except.ok ([("ecosystem_feedback", feedback_data)],
        [LogEntry.sentInfo "Sent ecosystem feedback" feedback_data])

/-- `AMRDataPipeline.collect_ecosystem_feedback` (src/amr_data_pipeline.py:81-91). -/
def collect_ecosystem_feedback (p : ProducerSlot) (feedback_data : Dict) :
    Except PyError MethodResult :=
  match collect_ecosystem_feedback_body p feedback_data with
  | Except.ok (sent, log) => Except.ok ⟨sent, log, DeliveryOutcome.acked, feedback_data⟩
  | Except.error e =>
      Except.ok ⟨[], [LogEntry.errorLog "Failed to send ecosystem feedback" e],
        DeliveryOutcome.failed e, feedback_data⟩

/-- `AMRDataPipeline.shutdown` (src/amr_data_pipeline.py:93-102):
`if self.kafka_producer is not None:` guard outside the try, then
`try: self.kafka_producer.close(); logger.info(...) except Exception as e:
logger.error(...)`.  The result is the log lines emitted; the `Except` layer
is the exception channel back to the caller. -/
def shutdown (p : ProducerSlot) : Except PyError (List LogEntry) :=
  match p with
  | none => Except.ok []
  | some producer =>
      match producer.close with
      | Except.ok _ => Except.ok [LogEntry.producerClosed]
      | Except.error e =>
          Except.ok [LogEntry.errorLog "Failed to close Kafka producer" e]

/-- The three source kinds of the spec's data model (§3). -/
inductive SourceKind where
  | marketSignal : SourceKind
  | customerInteraction : SourceKind
  | ecosystemFeedback : SourceKind
deriving DecidableEq, Repr

/-- A raw event: its source kind together with its payload dictionary. -/
structure RawEvent where
  kind : SourceKind
  data : Dict
deriving DecidableEq, Repr

/-- The spec's single entry point `ingest` (§4.4) dispatching to the source's
per-kind handler, exactly as the source's main block routes each simulated
event kind to its handler (src/amr_data_pipeline.py:115,122,130). -/
def ingest (p : ProducerSlot) (score : Scorer) (ev : RawEvent) :
    Except PyError MethodResult :=
  match ev.kind with
  | SourceKind.marketSignal => process_market_data p ev.data
  | SourceKind.customerInteraction => analyze_customer_behavior p score ev.data
  | SourceKind.ecosystemFeedback => collect_ecosystem_feedback p ev.data

/-- Projection: the messages a call delivered to the producer (none when the
call raised to its caller, which for these handlers never happens). -/
def sentOf (x : Except PyError MethodResult) : List (String × Dict) :=
  match x with
  | Except.ok r => r.sent
  | Except.error _ => []

/-- Projection: the terminal outcome of a call, when it returned. -/
def outcomeOf (x : Except PyError MethodResult) : Option DeliveryOutcome :=
  match x with
  | Except.ok r => some r.outcome
  | Except.error _ => none

/-- Projection: the log lines of a call, when it returned. -/
def logOf (x : Except PyError MethodResult) : List LogEntry :=
  match x with
  | Except.ok r => r.log
  | Except.error _ => []

/-- Projection: the value of the input dictionary after the call. -/
def inputAfterOf (x : Except PyError MethodResult) (dflt : Dict) : Dict :=
  match x with
  | Except.ok r => r.inputAfter
  | Except.error _ => dflt

/-- The spec's fixed `SourceKind` → topic mapping (§4.2), stated from the
spec's words, to be compared with the topics the embedded handlers use. -/
def specTopicOf : SourceKind → String
  | SourceKind.marketSignal => "market_trends"
  | SourceKind.customerInteraction => "customer_behavior"
  | SourceKind.ecosystemFeedback => "ecosystem_feedback"

/-- The spec's required fields per `SourceKind` (§6), stated from the spec's
words. -/
def specRequiredKeys : SourceKind → List String
  | SourceKind.marketSignal => ["timestamp", "sector", "trend"]
  | SourceKind.customerInteraction => ["customer_id", "text"]
  | SourceKind.ecosystemFeedback => ["timestamp", "feedback_type", "message"]

/-- A raw event is valid when its dictionary carries exactly the fields the
spec's §6 schema lists for its kind (every required key present, no others). -/
def RawEvent.valid (ev : RawEvent) : Bool :=
  (specRequiredKeys ev.kind).all (fun k => (ev.data.lookup k).isSome) &&
    ev.data.all (fun kv => decide (kv.1 ∈ specRequiredKeys ev.kind))

/-! ### Concrete fixtures used by witnesses and counterexamples -/

/-- A producer whose sends and close always succeed. -/
def okProducer : Producer := ⟨fun _ _ => Except.ok (), Except.ok ()⟩

/-- A scorer that always yields the fixed score `q` (the spec's stub scorer). -/
def stubScorer (q : ℚ) : Scorer := fun _ => Except.ok q

/-- A scorer that always raises, as when the model is unavailable. -/
def failScorer : Scorer := fun _ => Except.error (PyError.inferenceError "model unavailable")

/-- The simulated customer interaction of the source's main block
(src/amr_data_pipeline.py:118-121). -/
def exCustomer : RawEvent :=
  ⟨SourceKind.customerInteraction,
    [("customer_id", Value.str "C1234"), ("text", Value.str "Great product! I love it!")]⟩

/-- The simulated market event of the source's main block
(src/amr_data_pipeline.py:110-114). -/
def exMarket : RawEvent :=
  ⟨SourceKind.marketSignal,
    [("timestamp", Value.str "2023-10-05T12:00:00"), ("sector", Value.str "Technology"),
      ("trend", Value.str "Positive")]⟩

/-- The spec's §8 malformed market event: `sector` only, `timestamp` missing. -/
def exBadMarket : RawEvent := ⟨SourceKind.marketSignal, [("sector", Value.str "Tech")]⟩

/-! ### Dictionary lemmas -/

/-- A successful lookup witnesses membership of the key-value pair. -/
theorem Dict.lookup_some_mem {k : String} {v : Value} :
    ∀ {d : Dict}, Dict.lookup d k = some v → (k, v) ∈ d := by
  intro d
  induction d with
  | nil => intro h; simp [Dict.lookup] at h
  | cons kv rest ih =>
      intro h
      obtain ⟨k', v'⟩ := kv
      by_cases hk : k' = k
      · subst hk
        simp [Dict.lookup] at h
        subst h
        exact List.mem_cons_self _ _
      · rw [Dict.lookup, if_neg hk] at h
        exact List.mem_cons_of_mem _ (ih h)

/-- A valid event of any kind carries no `sentiment` key: the §6 schemas list
no such field. -/
theorem valid_no_sentiment {ev : RawEvent} (h : ev.valid = true) :
    Dict.lookup ev.data "sentiment" = none := by
  cases hs : Dict.lookup ev.data "sentiment" with
  | none => rfl
  | some v =>
      exfalso
      have hmem := Dict.lookup_some_mem hs
      unfold RawEvent.valid at h
      rw [Bool.and_eq_true] at h
      have h2 := List.all_eq_true.mp h.2 _ hmem
      have h3 : ("sentiment" : String) ∈ specRequiredKeys ev.kind := of_decide_eq_true h2
      cases hk : ev.kind <;> rw [hk] at h3 <;> exact absurd h3 (by decide)

/-! ### Per-method characterization lemmas -/

/-- `process_market_data` either sends `data` to `market_trends` and acks, or
catches the send error; in both cases it returns. -/
theorem process_market_data_eq (p : ProducerSlot) (data : Dict) :
    (∃ u, p.sendCall "market_trends" data = Except.ok u ∧
      process_market_data p data = Except.ok
        ⟨[("market_trends", data)], [LogEntry.sentInfo "Sent market data" data],
          DeliveryOutcome.acked, data⟩) ∨
    (∃ e, p.sendCall "market_trends" data = Except.error e ∧
      process_market_data p data = Except.ok
        ⟨[], [LogEntry.errorLog "Failed to send market data" e],
          DeliveryOutcome.failed e, data⟩) := by
  cases h : p.sendCall "market_trends" data with
  | ok u =>
      left
      exact ⟨u, rfl, by simp [process_market_data, process_market_data_body, h]⟩
  | error e =>
      right
      exact ⟨e, rfl, by simp [process_market_data, process_market_data_body, h]⟩

/-- `collect_ecosystem_feedback` either sends `data` to `ecosystem_feedback`
and acks, or catches the send error; in both cases it returns. -/
theorem collect_ecosystem_feedback_eq (p : ProducerSlot) (data : Dict) :
    (∃ u, p.sendCall "ecosystem_feedback" data = Except.ok u ∧
      collect_ecosystem_feedback p data = Except.ok
        ⟨[("ecosystem_feedback", data)], [LogEntry.sentInfo "Sent ecosystem feedback" data],
          DeliveryOutcome.acked, data⟩) ∨
    (∃ e, p.sendCall "ecosystem_feedback" data = Except.error e ∧
      collect_ecosystem_feedback p data = Except.ok
        ⟨[], [LogEntry.errorLog "Failed to send ecosystem feedback" e],
          DeliveryOutcome.failed e, data⟩) := by
  cases h : p.sendCall "ecosystem_feedback" data with
  | ok u =>
      left
      exact ⟨u, rfl, by simp [collect_ecosystem_feedback, collect_ecosystem_feedback_body, h]⟩
  | error e =>
      right
      exact ⟨e, rfl, by simp [collect_ecosystem_feedback, collect_ecosystem_feedback_body, h]⟩

/-- The published analysis payload built at src/amr_data_pipeline.py:71-74. -/
def analysisPayload (cid : Value) (q : ℚ) : Dict :=
  [("customer_id", cid),
    ("sentiment", Value.str (if (1 : ℚ) / 2 < q then "positive" else "negative"))]

/-- Subscripting succeeds exactly when the lookup does. -/
theorem Dict.getItem_ok {d : Dict} {k : String} {v : Value} :
    Dict.getItem d k = Except.ok v ↔ Dict.lookup d k = some v := by
  unfold Dict.getItem
  cases h : Dict.lookup d k <;> simp

/-- `analyze_customer_behavior` either completes its whole try-body — the
`text` lookup, the scoring call, the `customer_id` lookup and the send of the
fresh analysis payload all succeed — and acks, or some step raises and the
error is caught; in both cases it returns. -/
theorem analyze_customer_behavior_eq (p : ProducerSlot) (score : Scorer) (d : Dict) :
    (∃ text q cid u,
      Dict.lookup d "text" = some text ∧ score text = Except.ok q ∧
      Dict.lookup d "customer_id" = some cid ∧
      p.sendCall "customer_behavior" (analysisPayload cid q) = Except.ok u ∧
      analyze_customer_behavior p score d = Except.ok
        ⟨[("customer_behavior", analysisPayload cid q)],
          [LogEntry.sentInfo "Sent customer behavior analysis" (analysisPayload cid q)],
          DeliveryOutcome.acked, d⟩) ∨
    (∃ e, analyze_customer_behavior p score d = Except.ok
        ⟨[], [LogEntry.errorLog "Failed to analyze customer behavior" e],
          DeliveryOutcome.failed e, d⟩) := by
  cases h1 : Dict.getItem d "text" with
  | error e =>
      right
      refine ⟨e, ?_⟩
      unfold analyze_customer_behavior analyze_customer_behavior_body
      simp only [h1]
  | ok text =>
    cases h2 : score text with
    | error e =>
        right
        refine ⟨e, ?_⟩
        unfold analyze_customer_behavior analyze_customer_behavior_body
        simp only [h1, h2]
    | ok q =>
      cases h3 : Dict.getItem d "customer_id" with
      | error e =>
          right
          refine ⟨e, ?_⟩
          unfold analyze_customer_behavior analyze_customer_behavior_body
          simp only [h1, h2, h3]
      | ok cid =>
        cases h4 : p.sendCall "customer_behavior" (analysisPayload cid q) with
        | error e =>
            right
            refine ⟨e, ?_⟩
            unfold analyze_customer_behavior analyze_customer_behavior_body
            unfold analysisPayload at h4
            simp only [h1, h2, h3, h4]
        | ok u =>
            left
            refine ⟨text, q, cid, u, Dict.getItem_ok.mp h1, h2, Dict.getItem_ok.mp h3, h4, ?_⟩
            unfold analyze_customer_behavior analyze_customer_behavior_body analysisPayload
            unfold analysisPayload at h4
            simp only [h1, h2, h3, h4]

/-- The result of ingesting the source's simulated market event through an
always-succeeding producer. -/
def exMarketResult : MethodResult :=
  ⟨[("market_trends", exMarket.data)], [LogEntry.sentInfo "Sent market data" exMarket.data],
    DeliveryOutcome.acked, exMarket.data⟩

/-! ### The claims -/

/-- C1: every ingested RawEvent yields exactly one terminal DeliveryOutcome —
`ingest` always returns (never raises to the caller) a single result whose
outcome is either `acked` or `failed e`, and in the failed case the per-event
error `e` is captured in that event's own log rather than propagated. -/
theorem c1_every_event_one_outcome (p : ProducerSlot) (score : Scorer) (ev : RawEvent) :
    ∃ r : MethodResult, ingest p score ev = Except.ok r ∧
      (r.outcome = DeliveryOutcome.acked ∨
        ∃ e, r.outcome = DeliveryOutcome.failed e ∧
          ∃ ctx, LogEntry.errorLog ctx e ∈ r.log) := by
  cases hk : ev.kind
  case marketSignal =>
    have hing : ingest p score ev = process_market_data p ev.data := by
      unfold ingest
      rw [hk]
    rcases process_market_data_eq p ev.data with ⟨u, _, heq⟩ | ⟨e, _, heq⟩
    · exact ⟨_, hing.trans heq, Or.inl rfl⟩
    · exact ⟨_, hing.trans heq, Or.inr ⟨e, rfl, _, List.mem_cons_self _ _⟩⟩
  case customerInteraction =>
    have hing : ingest p score ev = analyze_customer_behavior p score ev.data := by
      unfold ingest
      rw [hk]
    rcases analyze_customer_behavior_eq p score ev.data with
      ⟨text, q, cid, u, _, _, _, _, heq⟩ | ⟨e, heq⟩
    · exact ⟨_, hing.trans heq, Or.inl rfl⟩
    · exact ⟨_, hing.trans heq, Or.inr ⟨e, rfl, _, List.mem_cons_self _ _⟩⟩
  case ecosystemFeedback =>
    have hing : ingest p score ev = collect_ecosystem_feedback p ev.data := by
      unfold ingest
      rw [hk]
    rcases collect_ecosystem_feedback_eq p ev.data with ⟨u, _, heq⟩ | ⟨e, _, heq⟩
    · exact ⟨_, hing.trans heq, Or.inl rfl⟩
    · exact ⟨_, hing.trans heq, Or.inr ⟨e, rfl, _, List.mem_cons_self _ _⟩⟩

/-- C3: every message handed to the broker while processing an event goes to
the fixed topic determined by its SourceKind (`market_trends`,
`customer_behavior`, `ecosystem_feedback`), and an acked event was published
exactly once, to that topic. -/
theorem c3_topic_mapping (p : ProducerSlot) (score : Scorer) (ev : RawEvent)
    (r : MethodResult) (h : ingest p score ev = Except.ok r) :
    (∀ t payload, (t, payload) ∈ r.sent → t = specTopicOf ev.kind) ∧
      (r.outcome = DeliveryOutcome.acked →
        ∃ payload, r.sent = [(specTopicOf ev.kind, payload)]) := by
  cases hk : ev.kind
  case marketSignal =>
    have hing : ingest p score ev = process_market_data p ev.data := by
      unfold ingest
      rw [hk]
    rw [hing] at h
    rcases process_market_data_eq p ev.data with ⟨u, _, heq⟩ | ⟨e, _, heq⟩ <;>
      rw [heq] at h <;>
      cases Except.ok.inj h <;>
      constructor
    · intro t payload hmem
      rw [List.mem_singleton] at hmem
      cases hmem
      rfl
    · intro _
      exact ⟨ev.data, rfl⟩
    · intro t payload hmem
      exact absurd hmem (List.not_mem_nil _)
    · intro hc
      exact absurd hc (by simp)
  case customerInteraction =>
    have hing : ingest p score ev = analyze_customer_behavior p score ev.data := by
      unfold ingest
      rw [hk]
    rw [hing] at h
    rcases analyze_customer_behavior_eq p score ev.data with
      ⟨text, q, cid, u, _, _, _, _, heq⟩ | ⟨e, heq⟩ <;>
      rw [heq] at h <;>
      cases Except.ok.inj h <;>
      constructor
    · intro t payload hmem
      rw [List.mem_singleton] at hmem
      cases hmem
      rfl
    · intro _
      exact ⟨analysisPayload cid q, rfl⟩
    · intro t payload hmem
      exact absurd hmem (List.not_mem_nil _)
    · intro hc
      exact absurd hc (by simp)
  case ecosystemFeedback =>
    have hing : ingest p score ev = collect_ecosystem_feedback p ev.data := by
      unfold ingest
      rw [hk]
    rw [hing] at h
    rcases collect_ecosystem_feedback_eq p ev.data with ⟨u, _, heq⟩ | ⟨e, _, heq⟩ <;>
      rw [heq] at h <;>
      cases Except.ok.inj h <;>
      constructor
    · intro t payload hmem
      rw [List.mem_singleton] at hmem
      cases hmem
      rfl
    · intro _
      exact ⟨ev.data, rfl⟩
    · intro t payload hmem
      exact absurd hmem (List.not_mem_nil _)
    · intro hc
      exact absurd hc (by simp)

/-- Witness for C3: the source's simulated market event, an always-succeeding
producer and a stub scorer instantiate the theorem. -/
theorem c3_witness :
    ingest (some okProducer) (stubScorer ((7 : ℚ) / 10)) exMarket = Except.ok exMarketResult ∧
      ((∀ t payload, (t, payload) ∈ exMarketResult.sent → t = specTopicOf exMarket.kind) ∧
        (exMarketResult.outcome = DeliveryOutcome.acked →
          ∃ payload, exMarketResult.sent = [(specTopicOf exMarket.kind, payload)])) :=
  ⟨rfl, c3_topic_mapping (some okProducer) (stubScorer ((7 : ℚ) / 10)) exMarket exMarketResult rfl⟩

/-- The spec's §8 broker stub, answering its i-th send attempt (0-based): the
first `n` attempts fail with a transient broker error, later ones succeed. -/
def stubAttemptResult (n i : ℕ) : Except PyError Unit :=
  if i < n then Except.error (PyError.kafkaError "broker unavailable") else Except.ok ()

/-- The stub wired as the pipeline's producer.  The source performs exactly one
`send` call per event and has no retry loop (src/amr_data_pipeline.py:48), so
the only attempt the pipeline ever makes against the stub is attempt `0`. -/
def stubProducer (n : ℕ) : Producer :=
  ⟨fun _ _ => stubAttemptResult n 0, Except.ok ()⟩

/-- Counterexample to C6: with a broker that fails once and then succeeds
(N = 1 ≤ 4), the claim demands `Acked`, but the code retries nothing and the
event's outcome is `Failed` with the transient broker error. -/
theorem c6_counterexample :
    outcomeOf (process_market_data (some (stubProducer 1)) exMarket.data) =
      some (DeliveryOutcome.failed (PyError.kafkaError "broker unavailable")) := rfl

/-- C6 as amended: the code makes exactly one send attempt per event, with no
retry: against a broker stub failing `n` times before succeeding, the outcome
is `Acked` precisely when `n = 0` and `Failed` with the broker error for every
`n ≥ 1`. -/
theorem c6_single_attempt_no_retry (n : ℕ) (data : Dict) :
    outcomeOf (process_market_data (some (stubProducer n)) data) =
      some (if n = 0 then DeliveryOutcome.acked
        else DeliveryOutcome.failed (PyError.kafkaError "broker unavailable")) := by
  cases n with
  | zero => rfl
  | succ m =>
      simp [outcomeOf, process_market_data, process_market_data_body, ProducerSlot.sendCall,
        stubProducer, stubAttemptResult]

/-- C9: `shutdown` always returns normally — whatever the producer slot holds,
it yields a result instead of raising (the close error is caught and logged),
and with an uninitialized producer it is a no-op returning no log lines. -/
theorem c9_shutdown_never_raises (p : ProducerSlot) :
    (∃ l, shutdown p = Except.ok l) ∧ shutdown none = Except.ok [] := by
  constructor
  · cases p with
    | none => exact ⟨[], rfl⟩
    | some producer =>
        cases h : producer.close with
        | ok u =>
            refine ⟨[LogEntry.producerClosed], ?_⟩
            simp [shutdown, h]
        | error e =>
            refine ⟨[LogEntry.errorLog "Failed to close Kafka producer" e], ?_⟩
            simp [shutdown, h]
  · rfl

/-- C10: none of the three handlers mutates its input dictionary: each returns
with the argument dict holding, after the call, exactly its value before the
call (none of the embedded statement sequences writes into the argument). -/
theorem c10_inputs_not_mutated (p : ProducerSlot) (score : Scorer) (d : Dict) :
    (∃ r, process_market_data p d = Except.ok r ∧ r.inputAfter = d) ∧
      (∃ r, analyze_customer_behavior p score d = Except.ok r ∧ r.inputAfter = d) ∧
      (∃ r, collect_ecosystem_feedback p d = Except.ok r ∧ r.inputAfter = d) := by
  refine ⟨?_, ?_, ?_⟩
  · rcases process_market_data_eq p d with ⟨u, _, heq⟩ | ⟨e, _, heq⟩ <;> exact ⟨_, heq, rfl⟩
  · rcases analyze_customer_behavior_eq p score d with
      ⟨text, q, cid, u, _, _, _, _, heq⟩ | ⟨e, heq⟩ <;> exact ⟨_, heq, rfl⟩
  · rcases collect_ecosystem_feedback_eq p d with ⟨u, _, heq⟩ | ⟨e, _, heq⟩ <;> exact ⟨_, heq, rfl⟩

/-- Sentiment lookup on the analysis payload: the second entry. -/
theorem analysisPayload_sentiment (cid : Value) (q : ℚ) :
    Dict.lookup (analysisPayload cid q) "sentiment" =
      some (Value.str (if (1 : ℚ) / 2 < q then "positive" else "negative")) := by
  unfold analysisPayload
  rw [Dict.lookup, if_neg (by decide), Dict.lookup, if_pos rfl]

/-- C2: on a valid event, a published payload carries a `sentiment` field
exactly when the event is a CustomerInteraction (whose scoring necessarily
succeeded for the publish to happen), and in that case the label published is
`positive` exactly when the score is strictly greater than 0.5 and `negative`
otherwise — a score of exactly 0.5 lands in the else-branch. -/
theorem c2_sentiment_iff (p : ProducerSlot) (score : Scorer) (ev : RawEvent)
    (r : MethodResult) (t : String) (payload : Dict)
    (hv : ev.valid = true) (h : ingest p score ev = Except.ok r)
    (hmem : (t, payload) ∈ r.sent) :
    ((Dict.lookup payload "sentiment").isSome ↔ ev.kind = SourceKind.customerInteraction) ∧
      (ev.kind = SourceKind.customerInteraction →
        ∃ text q, Dict.lookup ev.data "text" = some text ∧ score text = Except.ok q ∧
          Dict.lookup payload "sentiment" =
            some (Value.str (if (1 : ℚ) / 2 < q then "positive" else "negative"))) := by
  cases hk : ev.kind
  case marketSignal =>
    have hing : ingest p score ev = process_market_data p ev.data := by
      unfold ingest
      rw [hk]
    rw [hing] at h
    rcases process_market_data_eq p ev.data with ⟨u, _, heq⟩ | ⟨e, _, heq⟩ <;>
      rw [heq] at h <;> cases Except.ok.inj h
    · rw [List.mem_singleton] at hmem
      cases hmem
      constructor
      · rw [valid_no_sentiment hv]
        simp
      · intro hx
        exact absurd hx (by decide)
    · exact absurd hmem (List.not_mem_nil _)
  case customerInteraction =>
    have hing : ingest p score ev = analyze_customer_behavior p score ev.data := by
      unfold ingest
      rw [hk]
    rw [hing] at h
    rcases analyze_customer_behavior_eq p score ev.data with
      ⟨text, q, cid, u, hl1, h2, hl3, h4, heq⟩ | ⟨e, heq⟩ <;>
      rw [heq] at h <;> cases Except.ok.inj h
    · rw [List.mem_singleton] at hmem
      cases hmem
      constructor
      · rw [analysisPayload_sentiment]
        simp
      · intro _
        exact ⟨text, q, hl1, h2, analysisPayload_sentiment cid q⟩
    · exact absurd hmem (List.not_mem_nil _)
  case ecosystemFeedback =>
    have hing : ingest p score ev = collect_ecosystem_feedback p ev.data := by
      unfold ingest
      rw [hk]
    rw [hing] at h
    rcases collect_ecosystem_feedback_eq p ev.data with ⟨u, _, heq⟩ | ⟨e, _, heq⟩ <;>
      rw [heq] at h <;> cases Except.ok.inj h
    · rw [List.mem_singleton] at hmem
      cases hmem
      constructor
      · rw [valid_no_sentiment hv]
        simp
      · intro hx
        exact absurd hx (by decide)
    · exact absurd hmem (List.not_mem_nil _)

/-- The success-path equation of `analyze_customer_behavior`: when every step
of the try-body succeeds, the analysis payload is published and acked. -/
theorem analyze_ok_eq (p : ProducerSlot) (score : Scorer) (d : Dict) (text : Value)
    (q : ℚ) (cid : Value) (u : Unit)
    (h1 : Dict.lookup d "text" = some text) (h2 : score text = Except.ok q)
    (h3 : Dict.lookup d "customer_id" = some cid)
    (h4 : p.sendCall "customer_behavior" (analysisPayload cid q) = Except.ok u) :
    analyze_customer_behavior p score d = Except.ok
      ⟨[("customer_behavior", analysisPayload cid q)],
        [LogEntry.sentInfo "Sent customer behavior analysis" (analysisPayload cid q)],
        DeliveryOutcome.acked, d⟩ := by
  have hg1 := Dict.getItem_ok.mpr h1
  have hg3 := Dict.getItem_ok.mpr h3
  unfold analyze_customer_behavior analyze_customer_behavior_body analysisPayload
  unfold analysisPayload at h4
  simp only [hg1, h2, hg3, h4]

/-- The analysis payload the source publishes for its simulated interaction
with a stub scorer above threshold. -/
def exPayload : Dict := [("customer_id", Value.str "C1234"), ("sentiment", Value.str "positive")]

/-- The result of ingesting the source's simulated customer interaction
through an always-succeeding producer with a stub scorer returning 0.7. -/
def exCustomerResult : MethodResult :=
  ⟨[("customer_behavior", exPayload)],
    [LogEntry.sentInfo "Sent customer behavior analysis" exPayload],
    DeliveryOutcome.acked, exCustomer.data⟩

/-- Witness for C2: the spec's own §8 example — the C1234 interaction with a
stub scorer returning 0.7 — instantiates the theorem. -/
theorem c2_witness :
    exCustomer.valid = true ∧
      ingest (some okProducer) (stubScorer ((7 : ℚ) / 10)) exCustomer =
        Except.ok exCustomerResult ∧
      ("customer_behavior", exPayload) ∈ exCustomerResult.sent ∧
      (((Dict.lookup exPayload "sentiment").isSome ↔
          exCustomer.kind = SourceKind.customerInteraction) ∧
        (exCustomer.kind = SourceKind.customerInteraction →
          ∃ text q, Dict.lookup exCustomer.data "text" = some text ∧
            stubScorer ((7 : ℚ) / 10) text = Except.ok q ∧
            Dict.lookup exPayload "sentiment" =
              some (Value.str (if (1 : ℚ) / 2 < q then "positive" else "negative")))) :=
  by
  have hpay : analysisPayload (Value.str "C1234") ((7 : ℚ) / 10) = exPayload := by
    unfold analysisPayload exPayload
    rw [if_pos (by norm_num)]
  have hconc : ingest (some okProducer) (stubScorer ((7 : ℚ) / 10)) exCustomer =
      Except.ok exCustomerResult := by
    have h := analyze_ok_eq (some okProducer) (stubScorer ((7 : ℚ) / 10)) exCustomer.data
      (Value.str "Great product! I love it!") ((7 : ℚ) / 10) (Value.str "C1234") ()
      rfl rfl rfl rfl
    rw [hpay] at h
    exact h
  exact ⟨by decide, hconc, List.mem_singleton.mpr rfl,
    c2_sentiment_iff (some okProducer) (stubScorer ((7 : ℚ) / 10)) exCustomer
      exCustomerResult "customer_behavior" exPayload (by decide) hconc
      (List.mem_singleton.mpr rfl)⟩

/-- Counterexample to C4: on the source's simulated interaction with a failing
scorer, nothing at all is published — the claim's "the event is still
published with the sentiment field left unset" fails; only the error capture
holds. -/
theorem c4_counterexample :
    sentOf (ingest (some okProducer) failScorer exCustomer) = [] ∧
      outcomeOf (ingest (some okProducer) failScorer exCustomer) =
        some (DeliveryOutcome.failed (PyError.inferenceError "model unavailable")) :=
  ⟨rfl, rfl⟩

/-- C4 as amended: when the scoring function fails on a CustomerInteraction,
the event is NOT published (the whole try-body is abandoned, so no broker send
happens); the error is recorded in the event's outcome and log instead of
aborting processing or reaching the caller. -/
theorem c4_inference_error_drops_event (p : ProducerSlot) (score : Scorer) (d : Dict)
    (text : Value) (e : PyError) (h1 : Dict.lookup d "text" = some text)
    (h2 : score text = Except.error e) :
    analyze_customer_behavior p score d = Except.ok
      ⟨[], [LogEntry.errorLog "Failed to analyze customer behavior" e],
        DeliveryOutcome.failed e, d⟩ := by
  have hg : Dict.getItem d "text" = Except.ok text := Dict.getItem_ok.mpr h1
  unfold analyze_customer_behavior analyze_customer_behavior_body
  simp only [hg, h2]

/-- Witness for C4 (amended): the simulated interaction with the unavailable
model instantiates the theorem. -/
theorem c4_witness :
    Dict.lookup exCustomer.data "text" = some (Value.str "Great product! I love it!") ∧
      failScorer (Value.str "Great product! I love it!") =
        Except.error (PyError.inferenceError "model unavailable") ∧
      analyze_customer_behavior (some okProducer) failScorer exCustomer.data = Except.ok
        ⟨[], [LogEntry.errorLog "Failed to analyze customer behavior"
            (PyError.inferenceError "model unavailable")],
          DeliveryOutcome.failed (PyError.inferenceError "model unavailable"),
          exCustomer.data⟩ :=
  ⟨rfl, rfl,
    c4_inference_error_drops_event (some okProducer) failScorer exCustomer.data
      (Value.str "Great product! I love it!") (PyError.inferenceError "model unavailable")
      rfl rfl⟩

/-- Counterexample to C5: the spec's own §8 malformed market event (`sector`
only, `timestamp` missing) is not rejected — the broker send happens and acks,
so no ValidationError short-circuits before enrichment or the broker. -/
theorem c5_counterexample :
    sentOf (ingest (some okProducer) (stubScorer ((7 : ℚ) / 10)) exBadMarket) =
      [("market_trends", [("sector", Value.str "Tech")])] ∧
      outcomeOf (ingest (some okProducer) (stubScorer ((7 : ℚ) / 10)) exBadMarket) =
        some DeliveryOutcome.acked :=
  ⟨rfl, rfl⟩

/-- An interaction event missing the required `text` field. -/
def exNoText : RawEvent := ⟨SourceKind.customerInteraction, [("customer_id", Value.str "C1")]⟩

/-- C5 as amended: the pipeline performs no schema validation and has no
ValidationError.  MarketSignal and EcosystemFeedback events are sent to the
broker whatever fields they carry (in particular with required ones missing);
a CustomerInteraction missing `text` fails with the KeyError raised by the
dict subscript — caught, with no broker send — not with a validation step. -/
theorem c5_no_validation (p : Producer) (score : Scorer) (ev : RawEvent) :
    (ev.kind = SourceKind.marketSignal →
      p.send "market_trends" ev.data = Except.ok () →
      ingest (some p) score ev = Except.ok
        ⟨[("market_trends", ev.data)], [LogEntry.sentInfo "Sent market data" ev.data],
          DeliveryOutcome.acked, ev.data⟩) ∧
      (ev.kind = SourceKind.ecosystemFeedback →
        p.send "ecosystem_feedback" ev.data = Except.ok () →
        ingest (some p) score ev = Except.ok
          ⟨[("ecosystem_feedback", ev.data)],
            [LogEntry.sentInfo "Sent ecosystem feedback" ev.data],
            DeliveryOutcome.acked, ev.data⟩) ∧
      (ev.kind = SourceKind.customerInteraction →
        Dict.lookup ev.data "text" = none →
        ingest (some p) score ev = Except.ok
          ⟨[], [LogEntry.errorLog "Failed to analyze customer behavior" (PyError.keyError "text")],
            DeliveryOutcome.failed (PyError.keyError "text"), ev.data⟩) := by
  refine ⟨?_, ?_, ?_⟩
  · intro hk hs
    unfold ingest
    rw [hk]
    unfold process_market_data process_market_data_body ProducerSlot.sendCall
    simp only [hs]
  · intro hk hs
    unfold ingest
    rw [hk]
    unfold collect_ecosystem_feedback collect_ecosystem_feedback_body ProducerSlot.sendCall
    simp only [hs]
  · intro hk hl
    have hg : Dict.getItem ev.data "text" = Except.error (PyError.keyError "text") := by
      unfold Dict.getItem
      rw [hl]
    unfold ingest
    rw [hk]
    unfold analyze_customer_behavior analyze_customer_behavior_body
    simp only [hg]

/-- Witness for C5 (amended): the §8 malformed market event sails through to
the broker, and an interaction without `text` dies on the subscript. -/
theorem c5_witness :
    ingest (some okProducer) failScorer exBadMarket = Except.ok
        ⟨[("market_trends", exBadMarket.data)],
          [LogEntry.sentInfo "Sent market data" exBadMarket.data],
          DeliveryOutcome.acked, exBadMarket.data⟩ ∧
      ingest (some okProducer) failScorer exNoText = Except.ok
        ⟨[], [LogEntry.errorLog "Failed to analyze customer behavior" (PyError.keyError "text")],
          DeliveryOutcome.failed (PyError.keyError "text"), exNoText.data⟩ :=
  ⟨(c5_no_validation okProducer failScorer exBadMarket).1 rfl rfl,
    (c5_no_validation okProducer failScorer exNoText).2.2 rfl rfl⟩

/-- Counterexample to C8: for the source's simulated interaction, the
published payload drops the original `text` field — it is not the RawEvent
plus an optional sentiment. -/
theorem c8_counterexample :
    sentOf (ingest (some okProducer) (stubScorer ((7 : ℚ) / 10)) exCustomer) =
      [("customer_behavior", exPayload)] ∧
      Dict.lookup exCustomer.data "text" = some (Value.str "Great product! I love it!") ∧
      Dict.lookup exPayload "text" = none := by
  have hpay : analysisPayload (Value.str "C1234") ((7 : ℚ) / 10) = exPayload := by
    unfold analysisPayload exPayload
    rw [if_pos (by norm_num)]
  have hconc : ingest (some okProducer) (stubScorer ((7 : ℚ) / 10)) exCustomer =
      Except.ok exCustomerResult := by
    have h := analyze_ok_eq (some okProducer) (stubScorer ((7 : ℚ) / 10)) exCustomer.data
      (Value.str "Great product! I love it!") ((7 : ℚ) / 10) (Value.str "C1234") ()
      rfl rfl rfl rfl
    rw [hpay] at h
    exact h
  refine ⟨?_, rfl, rfl⟩
  rw [hconc]
  rfl

/-- C8 as amended: MarketSignal and EcosystemFeedback payloads are the
RawEvent's dictionary unchanged, but the CustomerInteraction payload is the
fresh two-field analysis dict — `customer_id` copied unchanged from the
RawEvent plus the derived `sentiment` — with every other original field
(notably `text`) dropped. -/
theorem c8_payload_content (p : ProducerSlot) (score : Scorer) (ev : RawEvent)
    (r : MethodResult) (t : String) (payload : Dict)
    (h : ingest p score ev = Except.ok r) (hmem : (t, payload) ∈ r.sent) :
    (ev.kind = SourceKind.marketSignal → payload = ev.data) ∧
      (ev.kind = SourceKind.ecosystemFeedback → payload = ev.data) ∧
      (ev.kind = SourceKind.customerInteraction →
        ∃ cid q, Dict.lookup ev.data "customer_id" = some cid ∧
          payload = analysisPayload cid q) := by
  cases hk : ev.kind
  case marketSignal =>
    have hing : ingest p score ev = process_market_data p ev.data := by
      unfold ingest
      rw [hk]
    rw [hing] at h
    rcases process_market_data_eq p ev.data with ⟨u, _, heq⟩ | ⟨e, _, heq⟩ <;>
      rw [heq] at h <;> cases Except.ok.inj h
    · rw [List.mem_singleton] at hmem
      cases hmem
      exact ⟨fun _ => rfl, fun hx => absurd hx (by decide), fun hx => absurd hx (by decide)⟩
    · exact absurd hmem (List.not_mem_nil _)
  case customerInteraction =>
    have hing : ingest p score ev = analyze_customer_behavior p score ev.data := by
      unfold ingest
      rw [hk]
    rw [hing] at h
    rcases analyze_customer_behavior_eq p score ev.data with
      ⟨text, q, cid, u, hl1, h2, hl3, h4, heq⟩ | ⟨e, heq⟩ <;>
      rw [heq] at h <;> cases Except.ok.inj h
    · rw [List.mem_singleton] at hmem
      cases hmem
      exact ⟨fun hx => absurd hx (by decide), fun hx => absurd hx (by decide),
        fun _ => ⟨cid, q, hl3, rfl⟩⟩
    · exact absurd hmem (List.not_mem_nil _)
  case ecosystemFeedback =>
    have hing : ingest p score ev = collect_ecosystem_feedback p ev.data := by
      unfold ingest
      rw [hk]
    rw [hing] at h
    rcases collect_ecosystem_feedback_eq p ev.data with ⟨u, _, heq⟩ | ⟨e, _, heq⟩ <;>
      rw [heq] at h <;> cases Except.ok.inj h
    · rw [List.mem_singleton] at hmem
      cases hmem
      exact ⟨fun hx => absurd hx (by decide), fun _ => rfl, fun hx => absurd hx (by decide)⟩
    · exact absurd hmem (List.not_mem_nil _)

/-- Witness for C8 (amended): the simulated interaction instantiates the
theorem, exhibiting the preserved `customer_id` and the dropped rest. -/
theorem c8_witness :
    ingest (some okProducer) (stubScorer ((7 : ℚ) / 10)) exCustomer =
        Except.ok exCustomerResult ∧
      ("customer_behavior", exPayload) ∈ exCustomerResult.sent ∧
      ((exCustomer.kind = SourceKind.marketSignal → exPayload = exCustomer.data) ∧
        (exCustomer.kind = SourceKind.ecosystemFeedback → exPayload = exCustomer.data) ∧
        (exCustomer.kind = SourceKind.customerInteraction →
          ∃ cid q, Dict.lookup exCustomer.data "customer_id" = some cid ∧
            exPayload = analysisPayload cid q)) :=
  by
  have hpay : analysisPayload (Value.str "C1234") ((7 : ℚ) / 10) = exPayload := by
    unfold analysisPayload exPayload
    rw [if_pos (by norm_num)]
  have hconc : ingest (some okProducer) (stubScorer ((7 : ℚ) / 10)) exCustomer =
      Except.ok exCustomerResult := by
    have h := analyze_ok_eq (some okProducer) (stubScorer ((7 : ℚ) / 10)) exCustomer.data
      (Value.str "Great product! I love it!") ((7 : ℚ) / 10) (Value.str "C1234") ()
      rfl rfl rfl rfl
    rw [hpay] at h
    exact h
  exact ⟨hconc, List.mem_singleton.mpr rfl,
    c8_payload_content (some okProducer) (stubScorer ((7 : ℚ) / 10)) exCustomer
      exCustomerResult "customer_behavior" exPayload hconc (List.mem_singleton.mpr rfl)⟩

/-! ### The Publisher's same-key ordering guarantee (spec §4.3, §5)

The repository contains no Publisher implementation: the reliability layer the
spec describes (per-key sequencing lanes, retry with a budget of 5 attempts)
has no counterpart in src/amr_data_pipeline.py, which hands each event to the
Kafka client exactly once.  The following definitions are therefore built from
the spec's words alone, to settle the ordering claim against the specified
design. -/

/-- Modelled from the spec: an envelope as the Publisher's retry layer sees
it — its ordering key, its payload, and how many times the broker will fail
it before accepting (the broker stub of §8). -/
structure PubEnvelope where
  key : String
  payload : Dict
  fails : ℕ
deriving DecidableEq, Repr

/-- Modelled from the spec: an envelope reaches the broker iff its failure
count lies within the §4.3 retry budget of 5 attempts — failing 4 times still
acks on the fifth attempt, failing 5 exhausts the budget. -/
def pubAcked (e : PubEnvelope) : Bool := e.fails < 5

/-- Modelled from the spec: the §5 per-key sequencing lane — the pending
envelopes of one ordering key, in submission order. -/
def laneOf (k : String) (subs : List PubEnvelope) : List PubEnvelope :=
  List.filter (fun e => e.key == k) subs

/-- Modelled from the spec: one concurrent execution of the Publisher.  The
schedule lists, in real-time order, which lane completes its next in-flight
envelope; all retries of that envelope happen within its step, since backoff
suspends the in-flight send only and the lane never yields its head early
(§5).  A completed envelope joins the broker's arrival log iff its retry
budget sufficed. -/
def publisherRun : List String → (String → List PubEnvelope) → List PubEnvelope
  | [], _ => []
  | k :: sched, lanes =>
    match lanes k with
    | [] => publisherRun sched lanes
    | e :: rest =>
        if pubAcked e
        then e :: publisherRun sched (Function.update lanes k rest)
        else publisherRun sched (Function.update lanes k rest)

/-- Modelled from the spec: the broker-arrival order of a submission batch
under a schedule, starting from each key's submission-order lane. -/
def publisherDeliveries (sched : List String) (subs : List PubEnvelope) : List PubEnvelope :=
  publisherRun sched (fun k => laneOf k subs)

/-- Lane-order preservation for `publisherRun`: under the invariant that every
lane holds only envelopes of its own key, the arrivals of key `k` form a
subsequence of lane `k`. -/
theorem publisherRun_filter_sublist (k : String) :
    ∀ (sched : List String) (lanes : String → List PubEnvelope),
      (∀ j e, e ∈ lanes j → e.key = j) →
      List.Sublist (List.filter (fun e => e.key == k) (publisherRun sched lanes)) (lanes k) := by
  intro sched
  induction sched with
  | nil =>
      intro lanes _
      simp [publisherRun]
  | cons k' sched ih =>
      intro lanes hinv
      cases hl : lanes k' with
      | nil =>
          have h := ih lanes hinv
          simp only [publisherRun, hl]
          exact h
      | cons e rest =>
          have hek : e.key = k' := hinv k' e (by rw [hl]; exact List.mem_cons_self _ _)
          have hinv' : ∀ j x, x ∈ Function.update lanes k' rest j → x.key = j := by
            intro j x hx
            by_cases hj : j = k'
            · subst hj
              rw [Function.update_same] at hx
              exact hinv j x (by rw [hl]; exact List.mem_cons_of_mem _ hx)
            · rw [Function.update_noteq hj] at hx
              exact hinv j x hx
          have IH := ih (Function.update lanes k' rest) hinv'
          simp only [publisherRun, hl]
          by_cases hkk : k' = k
          · subst hkk
            rw [Function.update_same] at IH
            have hpe : (e.key == k') = true := by
              rw [hek]
              exact beq_self_eq_true k'
            cases hack : pubAcked e
            · rw [if_neg Bool.false_ne_true]
              rw [hl]
              exact IH.trans (List.sublist_cons_self e rest)
            · rw [if_pos rfl]
              rw [List.filter_cons, if_pos hpe, hl]
              exact List.Sublist.cons₂ e IH
          · rw [Function.update_noteq (fun h => hkk h.symm)] at IH
            have hpe : (e.key == k) = false := by
              rw [hek]
              exact beq_false_of_ne hkk
            cases hack : pubAcked e
            · rw [if_neg Bool.false_ne_true]
              exact IH
            · rw [if_pos rfl]
              rw [List.filter_cons, if_neg (by rw [hpe]; exact Bool.false_ne_true)]
              exact IH

/-- C7: in the spec-modelled Publisher, for every submission batch and every
concurrent schedule, the envelopes of any single ordering key reach the broker
as a subsequence of their submission order — the retry logic never reorders
envelopes sharing a key, whatever the interleaving with other keys. -/
theorem c7_same_key_never_reordered (sched : List String) (subs : List PubEnvelope)
    (k : String) :
    List.Sublist (List.filter (fun e => e.key == k) (publisherDeliveries sched subs))
      (List.filter (fun e => e.key == k) subs) := by
  have hinv : ∀ j e, e ∈ laneOf j subs → e.key = j := by
    intro j e he
    exact eq_of_beq (List.mem_filter.mp he).2
  exact publisherRun_filter_sublist k sched (fun j => laneOf j subs) hinv
